import Mathlib

/-!
Verification of the astrological signal pipeline of `astro_bot`
(`src/astro_bot/astrology.py`) against its natural-language specification.

The Python code is shallowly embedded:
  * Python `float` longitudes become `ℚ` (each float value is a rational),
    with Python's float `%` modelled by `pymod` (floor-based remainder,
    result carrying the sign of the divisor, exactly Python's semantics);
  * Python dicts that are only built from literals and iterated become
    association lists in insertion order;
  * Python strings are Lean `String`s; `str.strip` is modelled by `pyStrip`
    and `str.split` on a single-character separator by `splitChar`, both
    structurally recursive so that concrete runs reduce in the kernel;
  * the filesystem seen by `load_quotes` is a map
    `String → Option (List String)` from file name to its list of lines
    (`none` = the file does not exist);
  * `random.choice(quotes)` is modelled by an extra index argument `pick`,
    selecting `quotes[pick % len(quotes)]`;
  * the skyfield ephemeris is an abstract `observe : String → ℚ` giving the
    raw (un-normalized) ecliptic longitude for an ephemeris key;
  * `dateutil.tz.gettz` is modelled by `dateutil_gettz`, following the
    dispatch of `dateutil/tz/tz.py` over an abstract environment `TzEnv`
    (the IANA database, the POSIX-`tzstr` parser, `time.tzname` and the
    `TZ` environment variable): an empty or `:` name yields the local
    zone, a database hit yields that zone file, a digit-containing name
    may parse as a fixed-offset `tzstr`, `GMT`/`UTC` are hardcoded, a
    local abbreviation yields the local zone, and only the remaining
    names give `None` — in which case the constructed datetime is naive
    and skyfield's `from_datetime` raises.
-/

/-- Python's `%` on reals: `x - y * floor (x / y)`.  For `y > 0` the result
lies in `[0, y)` whatever the sign of `x`. -/
def pymod (x y : ℚ) : ℚ := x - y * ⌊x / y⌋

/-- Python's `str.strip()`: drop whitespace from both ends. -/
def pyStrip (s : String) : String :=
  String.mk (((s.data.dropWhile Char.isWhitespace).reverse.dropWhile Char.isWhitespace).reverse)

/-- Python's `str.split(sep)` for a one-character separator, on the
character list of the string.  `splitChar c [] = [[]]`, matching
`"".split(sep) == [""]`. -/
def splitChar (sep : Char) : List Char → List (List Char)
  | [] => [[]]
  | c :: cs =>
      let r := splitChar sep cs
      if c = sep then [] :: r
      else
        match r with
        | [] => [[c]]
        | g :: gs => (c :: g) :: gs

/-- Accumulator for a run of decimal digits; `none` until the first digit,
`none` result on any non-digit character. -/
def digitsVal : List Char → Option Nat → Option Nat
  | [], acc => acc
  | c :: cs, acc =>
      if c.isDigit then digitsVal cs (some ((acc.getD 0) * 10 + (c.toNat - 48)))
      else none

/-- Python's `int(str)`: surrounding whitespace allowed, optional sign,
then a non-empty run of decimal digits; anything else raises `ValueError`
(modelled as `none`). -/
def pyInt (cs0 : List Char) : Option Int :=
  let cs := ((cs0.dropWhile Char.isWhitespace).reverse.dropWhile Char.isWhitespace).reverse
  match cs with
  | '-' :: rest => (digitsVal rest none).map (fun n => -(n : Int))
  | '+' :: rest => (digitsVal rest none).map (fun n => (n : Int))
  | rest => (digitsVal rest none).map (fun n => (n : Int))

/-- Python's `list(dict.fromkeys(l))`: deduplicate keeping the first
occurrence of each element, preserving order.  `seen` is the set of keys
already emitted. -/
def dedupFirst : List String → List String → List String
  | [], _ => []
  | s :: rest, seen => if s ∈ seen then dedupFirst rest seen else s :: dedupFirst rest (s :: seen)

/-- `list(dict.fromkeys(l))` with an empty initial key set. -/
def pyDedup (l : List String) : List String := dedupFirst l []

/-! ## Aspect Detector (`AstrologyEngine.compute_aspects`) -/

/-- The `major_aspects` dict of `compute_aspects`, in insertion order. -/
def major_aspects : List (String × ℚ) :=
  [("Conjunction", 0), ("Sextile", 60), ("Square", 90), ("Trine", 120), ("Opposition", 180)]

/-- `orb = 6.0  # degrees` -/
def orb : ℚ := 6

/-- The circular distance computed for each (transit, natal) pair:
`delta = abs((t_lon - n_lon + 180) % 360 - 180)`. -/
def delta (t_lon n_lon : ℚ) : ℚ := |pymod (t_lon - n_lon + 180) 360 - 180|

/-- The inner `for a_name, a_lon in major_aspects.items(): ... break` loop:
return the first aspect name whose reference angle is within `orb` of `d`,
or `none` when no aspect matches. -/
def matchAspect (d : ℚ) : List (String × ℚ) → Option String
  | [] => none
  | (a_name, a_lon) :: rest =>
      if |d - a_lon| ≤ orb then some a_name else matchAspect d rest

/-- `AstrologyEngine.compute_aspects`: outer loop over `transit.items()`,
inner loop over `natal.items()`, appending `(t_name, n_name, a_name)` for
the first matching aspect of each pair (the `break`), nothing otherwise. -/
def compute_aspects (natal transit : List (String × ℚ)) : List (String × String × String) :=
  transit.flatMap (fun tp =>
    natal.filterMap (fun np =>
      (matchAspect (delta tp.2 np.2) major_aspects).map (fun a => (tp.1, np.1, a))))

/-! Spec-side transcription of the detector (section 4.2 of the spec),
used only to compare with `compute_aspects`. -/

/-- Transcribed from the spec: the fixed enumeration
{Conjunction=0, Sextile=60, Square=90, Trine=120, Opposition=180}. -/
def specAspectKinds : List (String × ℚ) :=
  [("Conjunction", 0), ("Sextile", 60), ("Square", 90), ("Trine", 120), ("Opposition", 180)]

/-- Transcribed from the spec: the first kind (in enumeration order) for
which `abs(delta - referenceAngle) <= 6`. -/
def specFirstKind (d : ℚ) : Option String :=
  (specAspectKinds.find? (fun k => |d - k.2| ≤ (6 : ℚ))).map Prod.fst

/-- Transcribed from the spec: outer iteration over transit bodies, inner
over natal bodies, `delta = abs(((transitLon - natalLon + 180) mod 360) - 180)`,
at most one event per pair, nothing when no kind is within orb, output in
iteration order. -/
def specDetect (natal transit : List (String × ℚ)) : List (String × String × String) :=
  transit.flatMap (fun tp =>
    natal.filterMap (fun np =>
      (specFirstKind (|pymod (tp.2 - np.2 + 180) 360 - 180|)).map (fun a => (tp.1, np.1, a))))

/-! ## Narrative Composer (`AstrologyEngine.render_daily_message` and helpers) -/

/-- The `mapping` dict of `AstrologyEngine._aspect_hint`. -/
def hintMapping : List ((String × String) × String) :=
  [(("Moon", "Square"), "Эмоции могут прыгать в разные стороны — дыши глубже."),
   (("Mars", "Trine"), "Легче сказать смелое ‘нет’."),
   (("Venus", "Sextile"), "Муза рядом: бери кисть, слова или музыку."),
   (("Saturn", "Opposition"), "Не перегружай себя обязанностями — структура, а не строгость."),
   (("Jupiter", "Trine"), "Оптимизм помогает увидеть возможности.")]

/-- `AstrologyEngine._aspect_hint`: `mapping.get((planet, aspect), default)`. -/
def _aspect_hint (planet aspect : String) : String :=
  ((hintMapping.find? (fun e => e.1 = (planet, aspect))).map Prod.snd).getD
    "Заметь, где тело подсказывает направление."

/-- The verb dict of `AstrologyEngine._aspect_verb`. -/
def verbMapping : List (String × String) :=
  [("Conjunction", "соединяется с"),
   ("Sextile", "делает секстиль к"),
   ("Square", "квадрат к"),
   ("Trine", "трин к"),
   ("Opposition", "в оппозиции к")]

/-- `AstrologyEngine._aspect_verb`: `{...}.get(aspect, "в аспекте к")`. -/
def _aspect_verb (aspect : String) : String :=
  ((verbMapping.find? (fun e => e.1 = aspect)).map Prod.snd).getD "в аспекте к"

/-- `AstrologyEngine._actions_from_aspects`: a fixed list, the `aspects`
argument is ignored. -/
def _actions_from_aspects (aspects : List (String × String × String)) : List String :=
  ["Обрати внимание на свои истинные желания",
   "Проведи немного времени наедине с собой",
   "Запиши три шага к мечте",
   "Сделай одно доброе дело для себя"]

/-- `AstrologyEngine._avoid_from_aspects`: a fixed list (deduplicated by
`list(dict.fromkeys(avoid))`), the `aspects` argument is ignored. -/
def _avoid_from_aspects (aspects : List (String × String × String)) : List String :=
  pyDedup
    ["Не игнорируй тревогу",
     "Не перегружай календарь",
     "Не сравнивай себя с другими"]

/-- The motif loop of `render_daily_message`: walk the events, skipping an
event whose key `(t_planet, aspect)` is already in `used`, and otherwise
keeping it and extending `used`.  Returns the surviving events. -/
def selectMotifs : List (String × String × String) → List (String × String) →
    List (String × String × String)
  | [], _ => []
  | (t, n, a) :: rest, used =>
      if (t, a) ∈ used then selectMotifs rest used
      else (t, n, a) :: selectMotifs rest ((t, a) :: used)

/-- The f-string `f"{t_planet} {verb} твоему {n_planet}. {hint}"` built for
each surviving motif. -/
def motifText (e : String × String × String) : String :=
  e.1 ++ " " ++ _aspect_verb e.2.2 ++ " твоему " ++ e.2.1 ++ ". " ++ _aspect_hint e.1 e.2.2

/-- The `motifs` list of `render_daily_message`: the motif loop runs over
`aspects[:5]` starting from an empty `used` set, formatting each survivor. -/
def motifs (aspects : List (String × String × String)) : List String :=
  (selectMotifs (aspects.take 5) []).map motifText

/-- `random.choice(quotes) if quotes else "Осознанность создаёт свободу."`,
with the random draw modelled by the index `pick`. -/
def pickQuote (quotes : List String) (pick : Nat) : String :=
  match quotes with
  | [] => "Осознанность создаёт свободу."
  | q :: qs => (q :: qs).get ⟨pick % (q :: qs).length, Nat.mod_lt _ (Nat.succ_pos _)⟩

/-- The `lines` list built by the events branch of `render_daily_message`,
in exactly the order of the Python `append`s. -/
def eventLines (user_name : String) (aspects : List (String × String × String))
    (quotes : List String) (pick : Nat) : List String :=
  ["Доброе утро, " ++ user_name ++ "!", "",
   "Тема дня: гармония и принятие. Прислушайся к себе."]
  ++ (match motifs aspects with
      | [] => []
      | m :: ms => "Энергии дня:" :: ((m :: ms).map (fun m => "• " ++ m)))
  ++ [""]
  ++ ("Действуй:" :: ((_actions_from_aspects aspects).take 2).map (fun a => "• " ++ a))
  ++ [""]
  ++ ("Категорически:" :: ((pyDedup (_avoid_from_aspects aspects)).take 2).map (fun c => "• " ++ c))
  ++ ["", "Утренний ритуал (5 минут):", "Посмотри на небо и вспомни три своих мечты.",
      "", "Девиз дня:", pickQuote quotes pick]

/-- `AstrologyEngine.render_daily_message`: events branch joins `lines`
with newlines; the empty-events branch returns the fixed quiet-day
template with one quote. -/
def render_daily_message (user_name : String) (aspects : List (String × String × String))
    (quotes : List String) (pick : Nat) : String :=
  match aspects with
  | [] =>
      "Доброе утро, " ++ user_name ++ "!\nСегодня спокойный день. Будь мягок к себе.\n\n"
        ++ pickQuote quotes pick
  | _ :: _ => String.intercalate "\n" (eventLines user_name aspects quotes pick)

/-! ## Quote Loader (`load_quotes`) -/

/-- The fixed tuple `("secret.txt", "happy_pocket.txt")` iterated by
`load_quotes`, in priority order. -/
def quoteSources : List String := ["secret.txt", "happy_pocket.txt"]

/-- The per-file body of `load_quotes`: strip each line, keep the
non-empty ones, in file order. -/
def cleanLines (ls : List String) : List String :=
  (ls.map pyStrip).filter (fun l => l ≠ "")

/-- The lines contributed by one source: nothing when the file does not
exist (`os.path.exists` false), its cleaned lines otherwise. -/
def fileLines (fs : String → Option (List String)) (fname : String) : List String :=
  match fs fname with
  | none => []
  | some ls => cleanLines ls

/-- The `result` accumulator of `load_quotes` after the loop over the
sources. -/
def loadedLines (fs : String → Option (List String)) : List String :=
  quoteSources.flatMap (fileLines fs)

/-- The fallback list of `load_quotes` (`# Fallback defaults if files empty`). -/
def defaultQuotes : List String :=
  ["Мы — магнит. Мы притягиваем то, чем являемся.",
   "Благодарность ускоряет поток изобилия.",
   "Я позволяю себе мечтать — и делаю один шаг сегодня."]

/-- `load_quotes(quotes_dir)`, with the directory contents abstracted as
`fs : String → Option (List String)`. -/
def load_quotes (fs : String → Option (List String)) : List String :=
  if loadedLines fs = [] then defaultQuotes else loadedLines fs

/-! ## Ephemeris Position Resolver (`planets_longitudes`, `_tz_aware_time`) -/

/-- The `planets` dict of `planets_longitudes`, in insertion order:
display name paired with the ephemeris key. -/
def planetEntries : List (String × String) :=
  [("Sun", "sun"), ("Moon", "moon"), ("Mercury", "mercury"), ("Venus", "venus"),
   ("Mars", "mars"), ("Jupiter", "jupiter barycenter"), ("Saturn", "saturn barycenter")]

/-- `AstrologyEngine.planets_longitudes`: for each of the seven fixed
bodies, observe its raw ecliptic longitude and store `lon % 360.0`.  The
ephemeris/observation pipeline is the abstract `observe`. -/
def planets_longitudes (observe : String → ℚ) : List (String × ℚ) :=
  planetEntries.map (fun p => (p.1, pymod (observe p.2) 360))

/-- `day, month, year = map(int, birth_date.split("."))`: exactly three
dot-separated fields, each a Python `int`; any other shape raises
`ValueError` (modelled as `none`). -/
def parseDate (s : String) : Option (Int × Int × Int) :=
  match (splitChar '.' s.data).map pyInt with
  | [some d, some m, some y] => some (d, m, y)
  | _ => none

/-- `hour, minute = map(int, birth_time.split(":"))`: exactly two
colon-separated fields, each a Python `int`. -/
def parseTime (s : String) : Option (Int × Int) :=
  match (splitChar ':' s.data).map pyInt with
  | [some h, some mi] => some (h, mi)
  | _ => none

/-- Gregorian leap-year rule, as used by `datetime`. -/
def isLeapYear (y : Int) : Bool :=
  (y % 4 = 0 && y % 100 ≠ 0) || y % 400 = 0

/-- Days in a month, as validated by the `datetime` constructor. -/
def daysInMonth (y m : Int) : Int :=
  if m = 2 then (if isLeapYear y then 29 else 28)
  else if m = 4 ∨ m = 6 ∨ m = 9 ∨ m = 11 then 30
  else 31

/-- The range validation performed by `datetime(year, month, day, hour,
minute)`; out-of-range fields raise `ValueError`. -/
def datetimeValid (y mo d h mi : Int) : Bool :=
  1 ≤ y && y ≤ 9999 && 1 ≤ mo && mo ≤ 12 && 1 ≤ d && d ≤ daysInMonth y mo
    && 0 ≤ h && h ≤ 23 && 0 ≤ mi && mi ≤ 59

/-- The kind of `tzinfo` object a `dateutil.tz.gettz` call can return. -/
inductive TzInfo
  | tzlocal
  | tzfile (name : String)
  | tzutc
  | tzstr (spec : String)
deriving DecidableEq

/-- The environment `dateutil.tz.gettz` consults: membership in the IANA
zone-file database (the `TZPATHS` search plus the bundled `zoneinfo`),
whether `tzstr(name)` parses as a POSIX TZ string, the local-time
abbreviations `time.tzname`, and the `TZ` environment variable. -/
structure TzEnv where
  db : String → Bool
  tzstrOk : String → Bool
  localNames : List String
  tzEnvVar : Option String

/-- `dateutil.tz.gettz(name)`, as dispatched by `dateutil/tz/tz.py` (minus
the Windows-only `tzwin` branch): a falsy name is replaced by `TZ` from
the environment when set; a name that is then empty or `:` yields
`tzlocal()`; otherwise the zone database is searched; failing that, a
name containing a decimal digit is tried as a POSIX `tzstr` (the
`GMT`/`UTC`/`time.tzname` checks are skipped in that case); a digitless
name yields the hardcoded UTC object for `GMT`/`UTC` or `tzlocal()` when
it matches a local abbreviation; every remaining name yields `None`. -/
def dateutil_gettz (env : TzEnv) (name0 : String) : Option TzInfo :=
  let name := if name0 = "" then env.tzEnvVar.getD "" else name0
  if name = "" ∨ name = ":" then some .tzlocal
  else if env.db name then some (.tzfile name)
  else if name.data.any Char.isDigit then
    (if env.tzstrOk name then some (.tzstr name) else none)
  else if name = "GMT" ∨ name = "UTC" then some .tzutc
  else if name ∈ env.localNames then some .tzlocal
  else none

/-- A timezone-aware civil datetime, the payload of the `Time` returned by
`_tz_aware_time` (the absolute instant is determined by these fields
together with the attached `tzinfo`). -/
structure AwareDT where
  year : Int
  month : Int
  day : Int
  hour : Int
  minute : Int
  tzinfo : TzInfo
deriving DecidableEq

/-- The single abstract error of spec section 7 for time resolution. -/
inductive TimeInputError
  | invalidTimeInput
deriving DecidableEq

/-- `AstrologyEngine._tz_aware_time`: parse the date fields, parse the time
fields, look the zone up with `tz.gettz` (modelled by `dateutil_gettz`,
which never raises), build the `datetime` (whose constructor validates the
field ranges, with whatever `tzinfo` — possibly `None` — attached), and
hand it to `ts.from_datetime`, which raises exactly on a naive datetime,
i.e. when `gettz` returned `None`.  Every raised `ValueError` is the
spec's `InvalidTimeInput`. -/
def _tz_aware_time (env : TzEnv)
    (birth_date birth_time timezone : String) : Except TimeInputError AwareDT :=
  match parseDate birth_date with
  | none => .error .invalidTimeInput
  | some (d, mo, y) =>
      match parseTime birth_time with
      | none => .error .invalidTimeInput
      | some (h, mi) =>
          let tz_info := dateutil_gettz env timezone
          if datetimeValid y mo d h mi then
            match tz_info with
            | none => .error .invalidTimeInput
            | some z => .ok ⟨y, mo, d, h, mi, z⟩
          else .error .invalidTimeInput

/-! ## Properties of `pymod` and the circular distance -/

lemma pymod_eq_fract (x : ℚ) {y : ℚ} (hy : y ≠ 0) : pymod x y = y * Int.fract (x / y) := by
  unfold pymod Int.fract
  rw [mul_sub, mul_comm y (x / y), div_mul_cancel₀ x hy]

lemma pymod_nonneg (x : ℚ) {y : ℚ} (hy : 0 < y) : 0 ≤ pymod x y := by
  rw [pymod_eq_fract x hy.ne']
  exact mul_nonneg hy.le (Int.fract_nonneg _)

lemma pymod_lt (x : ℚ) {y : ℚ} (hy : 0 < y) : pymod x y < y := by
  rw [pymod_eq_fract x hy.ne']
  calc y * Int.fract (x / y) < y * 1 := mul_lt_mul_of_pos_left (Int.fract_lt_one _) hy
    _ = y := mul_one y

lemma delta_nonneg (t n : ℚ) : 0 ≤ delta t n := abs_nonneg _

lemma delta_le_180 (t n : ℚ) : delta t n ≤ 180 := by
  unfold delta
  have h1 : 0 ≤ pymod (t - n + 180) 360 := pymod_nonneg _ (by norm_num)
  have h2 : pymod (t - n + 180) 360 < 360 := pymod_lt _ (by norm_num)
  rw [abs_le]
  constructor <;> linarith

lemma delta_comm (a b : ℚ) : delta a b = delta b a := by
  unfold delta
  have h360 : (360 : ℚ) ≠ 0 := by norm_num
  rw [pymod_eq_fract _ h360, pymod_eq_fract _ h360]
  have hcompl : (b - a + 180) / 360 = 1 - (a - b + 180) / 360 := by ring
  rw [hcompl]
  set s := (a - b + 180) / 360 with hs
  have h1 : (1 : ℚ) - s = ((1 : ℤ) : ℚ) + (-s) := by push_cast; ring
  rw [h1, Int.fract_int_add]
  rcases eq_or_ne (Int.fract s) 0 with h | h
  · rw [h, Int.fract_neg_eq_zero.mpr h]
  · rw [Int.fract_neg h]
    have hneg : 360 * (1 - Int.fract s) - 180 = -(360 * Int.fract s - 180) := by ring
    rw [hneg, abs_neg]

lemma delta_self (a : ℚ) : delta a a = 0 := by
  unfold delta
  have h : a - a + 180 = (180 : ℚ) := by ring
  rw [h]
  norm_num [pymod]

/-- C2: the detector's circular distance `delta(t,n) = abs(((t - n + 180)
mod 360) - 180)` always lies in `[0, 180]`, is symmetric in its two
arguments, and vanishes on equal longitudes. -/
theorem delta_circular_distance (a b : ℚ) :
    0 ≤ delta a b ∧ delta a b ≤ 180 ∧ delta a b = delta b a ∧ delta a a = 0 :=
  ⟨delta_nonneg a b, delta_le_180 a b, delta_comm a b, delta_self a⟩

/-! ## Detector refinement (C1) -/

lemma matchAspect_eq_find (d : ℚ) :
    ∀ l : List (String × ℚ),
      matchAspect d l = (l.find? (fun k => |d - k.2| ≤ orb)).map Prod.fst
  | [] => rfl
  | (a_name, a_lon) :: rest => by
      by_cases h : |d - a_lon| ≤ orb
      · simp [matchAspect, List.find?_cons, h]
      · simp [matchAspect, List.find?_cons, h, matchAspect_eq_find d rest]

lemma compute_aspects_eq_specDetect (natal transit : List (String × ℚ)) :
    compute_aspects natal transit = specDetect natal transit := by
  unfold compute_aspects specDetect
  simp only [matchAspect_eq_find]
  rfl

/-- The dedup key of an aspect event restricted to its two body names. -/
def bodyPair (e : String × String × String) : String × String := (e.1, e.2.1)

lemma row_pairs_sublist (t : String) (g : ℚ → Option String) :
    ∀ natal : List (String × ℚ),
      ((natal.filterMap (fun np => (g np.2).map (fun a => (t, np.1, a)))).map bodyPair).Sublist
        (natal.map (fun np => (t, np.1)))
  | [] => List.Sublist.refl _
  | np :: rest => by
      cases h : g np.2 with
      | none =>
          simp only [List.filterMap_cons, h, Option.map_none', List.map_cons]
          exact (row_pairs_sublist t g rest).cons _
      | some a =>
          simp only [List.filterMap_cons, h, Option.map_some', List.map_cons]
          exact (row_pairs_sublist t g rest).cons₂ _

lemma aspects_pairs_sublist (natal transit : List (String × ℚ)) :
    ((compute_aspects natal transit).map bodyPair).Sublist
      (transit.flatMap (fun tp => natal.map (fun np => (tp.1, np.1)))) := by
  unfold compute_aspects
  induction transit with
  | nil => simp
  | cons tp ts ih =>
      simp only [List.flatMap_cons, List.map_append]
      exact (row_pairs_sublist tp.1
        (fun lon => matchAspect (delta tp.2 lon) major_aspects) natal).append ih

lemma grid_eq_product (natal transit : List (String × ℚ)) :
    transit.flatMap (fun tp => natal.map (fun np => (tp.1, np.1)))
      = (transit.map Prod.fst) ×ˢ (natal.map Prod.fst) := by
  induction transit with
  | nil => rfl
  | cons tp ts ih =>
      simp only [List.flatMap_cons, List.map_cons, List.product_cons, ih, List.map_map]
      rfl

lemma grid_nodup {natal transit : List (String × ℚ)}
    (h1 : (transit.map Prod.fst).Nodup) (h2 : (natal.map Prod.fst).Nodup) :
    (transit.flatMap (fun tp => natal.map (fun np => (tp.1, np.1)))).Nodup := by
  rw [grid_eq_product]
  exact h1.product h2

/-- C1: `compute_aspects` coincides with the spec's detector — outer
transit / inner natal iteration order, per pair the first aspect kind (in
the fixed enumeration order) whose reference angle is within orb 6.0 of
the circular distance, at most one event per pair (no kind matching gives
no event), output in iteration order with no sorting or deduplication.
For body maps with distinct keys no (transit, natal) body pair occurs
twice in the output. -/
theorem compute_aspects_first_match (natal transit : List (String × ℚ))
    (h1 : (transit.map Prod.fst).Nodup) (h2 : (natal.map Prod.fst).Nodup) :
    compute_aspects natal transit = specDetect natal transit ∧
    (∀ d : ℚ, matchAspect d major_aspects = none ↔ ∀ k ∈ major_aspects, ¬ |d - k.2| ≤ orb) ∧
    ((compute_aspects natal transit).map bodyPair).Nodup := by
  refine ⟨compute_aspects_eq_specDetect natal transit, ?_, ?_⟩
  · intro d
    rw [matchAspect_eq_find]
    simp [List.find?_eq_none]
  · exact ((aspects_pairs_sublist natal transit).nodup) (grid_nodup h1 h2)

/-- The natal map of the spec's concrete test scenario (section 8). -/
def natalScenario : List (String × ℚ) := [("Sun", 10), ("Moon", 100)]

/-- The transit map of the spec's concrete test scenario (section 8). -/
def transitScenario : List (String × ℚ) := [("Sun", 190), ("Moon", 100)]

theorem compute_aspects_first_match_witness :
    compute_aspects natalScenario transitScenario = specDetect natalScenario transitScenario ∧
    ((compute_aspects natalScenario transitScenario).map bodyPair).Nodup := by
  have h := compute_aspects_first_match natalScenario transitScenario (by decide) (by decide)
  exact ⟨h.1, h.2.2⟩

/-! ## Composer properties (C3, C4, C10) -/

/-- The dedup key of the motif loop: `(t_planet, aspect)`. -/
def motifKey (e : String × String × String) : String × String := (e.1, e.2.2)

lemma selectMotifs_sublist :
    ∀ (l : List (String × String × String)) (used : List (String × String)),
      (selectMotifs l used).Sublist l
  | [], _ => List.Sublist.refl _
  | (t, n, a) :: rest, used => by
      unfold selectMotifs
      by_cases h : (t, a) ∈ used
      · simp only [h, if_true]
        exact (selectMotifs_sublist rest used).cons _
      · simp only [h, if_false]
        exact (selectMotifs_sublist rest ((t, a) :: used)).cons₂ _

lemma selectMotifs_keys :
    ∀ (l : List (String × String × String)) (used : List (String × String)),
      ((selectMotifs l used).map motifKey).Nodup ∧
        ∀ k ∈ (selectMotifs l used).map motifKey, k ∉ used
  | [], _ => by simp [selectMotifs]
  | (t, n, a) :: rest, used => by
      unfold selectMotifs
      by_cases h : (t, a) ∈ used
      · simpa only [h, if_true] using selectMotifs_keys rest used
      · simp only [h, if_false, List.map_cons, List.nodup_cons, List.mem_cons]
        obtain ⟨ih1, ih2⟩ := selectMotifs_keys rest ((t, a) :: used)
        refine ⟨⟨?_, ih1⟩, ?_⟩
        · intro hmem
          exact (ih2 _ hmem) (List.mem_cons_self _ _)
        · rintro k (rfl | hk)
          · exact h
          · intro hku
            exact (ih2 k hk) (List.mem_cons_of_mem _ hku)

lemma motifs_length_le (evs : List (String × String × String)) : (motifs evs).length ≤ 5 := by
  unfold motifs
  rw [List.length_map]
  calc (selectMotifs (evs.take 5) []).length
      ≤ (evs.take 5).length := (selectMotifs_sublist (evs.take 5) []).length_le
    _ ≤ 5 := evs.length_take_le 5

/-- C3: for a non-empty events list the events branch has at most 5 motif
bullets built from only the first 5 events in input order (the selected
events are a sublist of `events[:5]`), no two motif bullets share a
`(transit body, aspect kind)` key, at most 2 action bullets and at most 2
avoidance bullets, and the message is the newline join of the branch's
lines. -/
theorem composer_bullet_bounds (u : String) (evs : List (String × String × String))
    (qs : List String) (pick : Nat) (h : evs ≠ []) :
    (motifs evs).length ≤ 5 ∧
    (selectMotifs (evs.take 5) []).Sublist (evs.take 5) ∧
    ((selectMotifs (evs.take 5) []).map motifKey).Nodup ∧
    motifs evs = (selectMotifs (evs.take 5) []).map motifText ∧
    ((_actions_from_aspects evs).take 2).length ≤ 2 ∧
    ((pyDedup (_avoid_from_aspects evs)).take 2).length ≤ 2 ∧
    render_daily_message u evs qs pick = String.intercalate "\n" (eventLines u evs qs pick) := by
  refine ⟨motifs_length_le evs, selectMotifs_sublist _ _, (selectMotifs_keys _ _).1, rfl,
    (_actions_from_aspects evs).length_take_le 2, (pyDedup (_avoid_from_aspects evs)).length_take_le 2, ?_⟩
  cases evs with
  | nil => exact absurd rfl h
  | cons e rest => rfl

theorem composer_bullet_bounds_witness :
    (motifs [("Mars", "Venus", "Trine"), ("Mars", "Sun", "Trine")]).length ≤ 5 ∧
    (selectMotifs ([("Mars", "Venus", "Trine"), ("Mars", "Sun", "Trine")].take 5) []).Sublist
      ([("Mars", "Venus", "Trine"), ("Mars", "Sun", "Trine")].take 5) ∧
    ((selectMotifs ([("Mars", "Venus", "Trine"), ("Mars", "Sun", "Trine")].take 5) []).map
      motifKey).Nodup ∧
    motifs [("Mars", "Venus", "Trine"), ("Mars", "Sun", "Trine")]
      = (selectMotifs ([("Mars", "Venus", "Trine"), ("Mars", "Sun", "Trine")].take 5) []).map
          motifText ∧
    ((_actions_from_aspects [("Mars", "Venus", "Trine"), ("Mars", "Sun", "Trine")]).take 2).length
      ≤ 2 ∧
    ((pyDedup (_avoid_from_aspects
      [("Mars", "Venus", "Trine"), ("Mars", "Sun", "Trine")])).take 2).length ≤ 2 ∧
    render_daily_message "Ира" [("Mars", "Venus", "Trine"), ("Mars", "Sun", "Trine")] ["Свет"] 1
      = String.intercalate "\n"
          (eventLines "Ира" [("Mars", "Venus", "Trine"), ("Mars", "Sun", "Trine")] ["Свет"] 1) :=
  composer_bullet_bounds "Ира" [("Mars", "Venus", "Trine"), ("Mars", "Sun", "Trine")]
    ["Свет"] 1 (by decide)

/-- C4: with an empty events list the composer returns the fixed quiet-day
template with exactly one quote substituted; the quote is an element of
the pool when the pool is non-empty and the fixed default string when the
pool is empty; there is no failure case (any `userName`, including the
empty one, is just spliced in). -/
theorem composer_quiet_day (u : String) (qs : List String) (pick : Nat) :
    render_daily_message u [] qs pick
        = "Доброе утро, " ++ u ++ "!\nСегодня спокойный день. Будь мягок к себе.\n\n"
            ++ pickQuote qs pick ∧
    (pickQuote qs pick ∈ qs ∨ (qs = [] ∧ pickQuote qs pick = "Осознанность создаёт свободу.")) := by
  constructor
  · rfl
  · cases qs with
    | nil => exact Or.inr ⟨rfl, rfl⟩
    | cons q rest => exact Or.inl (List.get_mem _ _ _)

/-- C10: with any non-empty events list the events branch always attains
its bounds — the fixed action list has 4 entries so exactly 2 action
bullets are emitted, the fixed avoidance list has 3 distinct entries so
exactly 2 avoidance bullets are emitted, and the first event always
survives deduplication, so the motif section header and at least one
motif bullet always appear. -/
theorem composer_sections_exact (u : String) (evs : List (String × String × String))
    (qs : List String) (pick : Nat) (h : evs ≠ []) :
    (_actions_from_aspects evs).length = 4 ∧
    ((_actions_from_aspects evs).take 2).length = 2 ∧
    (pyDedup (_avoid_from_aspects evs)).length = 3 ∧
    ((pyDedup (_avoid_from_aspects evs)).take 2).length = 2 ∧
    motifs evs ≠ [] ∧
    (∀ e rest, evs = e :: rest → (selectMotifs (evs.take 5) []).head? = some e) ∧
    "Энергии дня:" ∈ eventLines u evs qs pick ∧
    ∃ m ms, motifs evs = m :: ms ∧ ("• " ++ m) ∈ eventLines u evs qs pick := by
  obtain ⟨e, rest, rfl⟩ := List.exists_cons_of_ne_nil h
  obtain ⟨t, n, a⟩ := e
  have hcons : ∀ (l : List (String × String × String)) (used : List (String × String)),
      selectMotifs ((t, n, a) :: l) used
        = if (t, a) ∈ used then selectMotifs l used
          else (t, n, a) :: selectMotifs l ((t, a) :: used) := fun _ _ => rfl
  have hsel : selectMotifs (((t, n, a) :: rest).take 5) []
      = (t, n, a) :: selectMotifs (rest.take 4) [(t, a)] := by
    rw [List.take_succ_cons, hcons, if_neg (List.not_mem_nil (t, a))]
  have hm : motifs ((t, n, a) :: rest)
      = motifText (t, n, a) :: (selectMotifs (rest.take 4) [(t, a)]).map motifText := by
    unfold motifs
    rw [hsel, List.map_cons]
  refine ⟨rfl, rfl, rfl, rfl, ?_, ?_, ?_, ?_⟩
  · rw [hm]
    exact List.cons_ne_nil _ _
  · intro e' rest' heq
    injection heq with h1 h2
    rw [hsel, ← h1]
    rfl
  · simp [eventLines, hm]
  · refine ⟨motifText (t, n, a), _, hm, ?_⟩
    simp [eventLines, hm]

theorem composer_sections_exact_witness :
    (_actions_from_aspects [("Sun", "Sun", "Opposition")]).length = 4 ∧
    ((_actions_from_aspects [("Sun", "Sun", "Opposition")]).take 2).length = 2 ∧
    (pyDedup (_avoid_from_aspects [("Sun", "Sun", "Opposition")])).length = 3 ∧
    ((pyDedup (_avoid_from_aspects [("Sun", "Sun", "Opposition")])).take 2).length = 2 ∧
    motifs [("Sun", "Sun", "Opposition")] ≠ [] ∧
    (selectMotifs ([("Sun", "Sun", "Opposition")].take 5) []).head?
      = some ("Sun", "Sun", "Opposition") ∧
    "Энергии дня:" ∈ eventLines "Аня" [("Sun", "Sun", "Opposition")] [] 0 := by
  have h := composer_sections_exact "Аня" [("Sun", "Sun", "Opposition")] [] 0 (by decide)
  exact ⟨h.1, h.2.1, h.2.2.1, h.2.2.2.1, h.2.2.2.2.1,
    h.2.2.2.2.2.1 ("Sun", "Sun", "Opposition") [] rfl, h.2.2.2.2.2.2.1⟩

/-! ## Quote Loader properties (C5, C6) -/

lemma loadedLines_eq_append (fs : String → Option (List String)) :
    loadedLines fs = fileLines fs "secret.txt" ++ fileLines fs "happy_pocket.txt" := by
  unfold loadedLines quoteSources
  simp [List.flatMap_cons, List.flatMap_nil]

/-- C5: the loader reads the existing sources in the fixed priority order,
keeps exactly the whitespace-trimmed non-empty lines in file order with
files in source order, preserves multiplicities, and falls back to the
fixed list of 3 built-in defaults exactly when no line survives, so the
returned pool is never empty. -/
theorem load_quotes_pool (fs : String → Option (List String)) :
    load_quotes fs ≠ [] ∧
    loadedLines fs = fileLines fs "secret.txt" ++ fileLines fs "happy_pocket.txt" ∧
    (∀ s : String, (loadedLines fs).count s
        = (fileLines fs "secret.txt").count s + (fileLines fs "happy_pocket.txt").count s) ∧
    (loadedLines fs ≠ [] → load_quotes fs = loadedLines fs) ∧
    (loadedLines fs = [] → load_quotes fs = defaultQuotes) ∧
    defaultQuotes.length = 3 ∧
    (∀ f ls, fs f = some ls → fileLines fs f = (ls.map pyStrip).filter (fun l => l ≠ "")) ∧
    (∀ s ∈ loadedLines fs, s ≠ "" ∧
      ∃ f ∈ quoteSources, ∃ ls, fs f = some ls ∧ ∃ raw ∈ ls, s = pyStrip raw) := by
  refine ⟨?_, loadedLines_eq_append fs, ?_, ?_, ?_, rfl, ?_, ?_⟩
  · unfold load_quotes
    by_cases h : loadedLines fs = []
    · rw [if_pos h]
      decide
    · rw [if_neg h]
      exact h
  · intro s
    rw [loadedLines_eq_append fs, List.count_append]
  · intro h
    unfold load_quotes
    rw [if_neg h]
  · intro h
    unfold load_quotes
    rw [if_pos h]
  · intro f ls h
    unfold fileLines
    rw [h]
    rfl
  · intro s hs
    unfold loadedLines at hs
    obtain ⟨f, hf, hsf⟩ := List.mem_flatMap.mp hs
    unfold fileLines at hsf
    cases hfs : fs f with
    | none => rw [hfs] at hsf; exact absurd hsf (List.not_mem_nil s)
    | some ls =>
        rw [hfs] at hsf
        unfold cleanLines at hsf
        have hmem := List.mem_filter.mp hsf
        obtain ⟨raw, hraw, hrs⟩ := List.mem_map.mp hmem.1
        refine ⟨?_, f, hf, ls, hfs, raw, hraw, hrs.symm⟩
        simpa using hmem.2

/-- A concrete filesystem: only `secret.txt` exists, holding a padded
line, a blank line and a plain line. -/
def exampleFs : String → Option (List String) :=
  fun f => if f = "secret.txt" then some ["  hello  ", "   ", "world"] else none

theorem load_quotes_pool_witness :
    load_quotes exampleFs ≠ [] ∧
    load_quotes exampleFs = loadedLines exampleFs ∧
    ("hello" ≠ "" ∧
      ∃ f ∈ quoteSources, ∃ ls, exampleFs f = some ls ∧
        ∃ raw ∈ ls, "hello" = pyStrip raw) := by
  have h := load_quotes_pool exampleFs
  exact ⟨h.1, h.2.2.2.1 (by decide), h.2.2.2.2.2.2.2 "hello" (by decide)⟩

/-- A concrete filesystem in which `secret.txt` holds the same line
twice. -/
def dupFs : String → Option (List String) :=
  fun f => if f = "secret.txt" then some ["echo", "echo"] else none

/-- C6 counterexample: `load_quotes` performs no deduplication — a source
whose file repeats a line yields a pool containing that string twice, so
the pool is not duplicate-free. -/
theorem load_quotes_duplicate_cex :
    load_quotes dupFs = ["echo", "echo"] ∧ ¬ (load_quotes dupFs).count "echo" ≤ 1 := by
  decide

/-- C6 amended: the loader does not deduplicate; whenever any line
survives, each string occurs in the returned pool exactly as many times as
it occurs among the surviving lines of the sources combined. -/
theorem load_quotes_count_preserved (fs : String → Option (List String)) (s : String)
    (h : loadedLines fs ≠ []) :
    (load_quotes fs).count s
      = (fileLines fs "secret.txt").count s + (fileLines fs "happy_pocket.txt").count s := by
  unfold load_quotes
  rw [if_neg h, loadedLines_eq_append fs, List.count_append]

theorem load_quotes_count_preserved_witness :
    (load_quotes dupFs).count "echo"
      = (fileLines dupFs "secret.txt").count "echo"
        + (fileLines dupFs "happy_pocket.txt").count "echo" :=
  load_quotes_count_preserved dupFs "echo" (by decide)

/-! ## Time resolution (C7) -/

/-- An environment with an empty zone database, a `tzstr` parser that
accepts nothing, no local abbreviations and no `TZ` variable: every
genuine IANA lookup misses. -/
def bareEnv : TzEnv := ⟨fun _ => false, fun _ => false, [], none⟩

/-- An environment whose zone database is empty but whose POSIX parser
accepts the TZ string `EST-3` (an abbreviation plus an offset). -/
def offsetEnv : TzEnv := ⟨fun _ => false, fun s => s == "EST-3", [], none⟩

/-- C7 counterexample: the program does not fail on every timezone name
outside the IANA database.  With an empty database, `gettz("")` falls
back to the local zone and `gettz("EST-3")` parses as a fixed POSIX
offset, so `_tz_aware_time` succeeds with a silently substituted zone
attached instead of raising — refuting both the `exactly when` and the
`never silently defaulted` parts of the claim. -/
theorem tz_aware_time_silent_default_cex :
    bareEnv.db "" = false ∧
    _tz_aware_time bareEnv "27.11.1997" "18:25" ""
      = .ok ⟨1997, 11, 27, 18, 25, .tzlocal⟩ ∧
    offsetEnv.db "EST-3" = false ∧
    _tz_aware_time offsetEnv "27.11.1997" "18:25" "EST-3"
      = .ok ⟨1997, 11, 27, 18, 25, .tzstr "EST-3"⟩ :=
  ⟨rfl, rfl, rfl, rfl⟩

/-- C7 (amended): time resolution fails, always with `InvalidTimeInput`,
exactly when the date or time string cannot be parsed (including the
datetime range validation) or `gettz` returns `None`, and on success the
attached zone object is exactly the one `gettz` returned; but `gettz`
itself does not miss on every non-IANA name: the name `:` (and the empty
name when `TZ` is unset) silently defaults to the local zone, and a
digit-containing name outside the database that parses as a POSIX TZ
string silently becomes a fixed offset; with `TZ` unset, `gettz` returns
`None` only for a non-empty, non-`:` name missing from the zone
database. -/
theorem tz_aware_time_gettz_fallback (env : TzEnv) (bd bt z : String) :
    ((∃ t, _tz_aware_time env bd bt z = .ok t) ↔
      (∃ d mo y, parseDate bd = some (d, mo, y) ∧
        ∃ h mi, parseTime bt = some (h, mi) ∧
          datetimeValid y mo d h mi = true ∧ ∃ tz, dateutil_gettz env z = some tz)) ∧
    (∀ t, _tz_aware_time env bd bt z = .ok t → dateutil_gettz env z = some t.tzinfo) ∧
    (∀ e, _tz_aware_time env bd bt z = .error e → e = .invalidTimeInput) ∧
    (z = ":" ∨ (z = "" ∧ env.tzEnvVar = none) → dateutil_gettz env z = some .tzlocal) ∧
    (env.db z = false → z.data.any Char.isDigit = true → env.tzstrOk z = true →
      dateutil_gettz env z = some (.tzstr z)) ∧
    (env.tzEnvVar = none → dateutil_gettz env z = none →
      z ≠ "" ∧ z ≠ ":" ∧ env.db z = false) := by
  have hmain :
      ((∃ t, _tz_aware_time env bd bt z = .ok t) ↔
        (∃ d mo y, parseDate bd = some (d, mo, y) ∧
          ∃ h mi, parseTime bt = some (h, mi) ∧
            datetimeValid y mo d h mi = true ∧ ∃ tz, dateutil_gettz env z = some tz)) ∧
      (∀ t, _tz_aware_time env bd bt z = .ok t → dateutil_gettz env z = some t.tzinfo) ∧
      (∀ e, _tz_aware_time env bd bt z = .error e → e = .invalidTimeInput) := by
    unfold _tz_aware_time
    cases hd : parseDate bd with
    | none => simp [hd]
    | some v =>
        obtain ⟨d, mo, y⟩ := v
        cases ht : parseTime bt with
        | none => simp [hd, ht]
        | some w =>
            obtain ⟨h, mi⟩ := w
            by_cases hv : datetimeValid y mo d h mi = true
            · cases hz : dateutil_gettz env z with
              | none => simp [hv, hz]
              | some tz =>
                  refine ⟨?_, ?_, ?_⟩
                  · simp only [hv, if_true, hz]
                    constructor
                    · intro _
                      exact ⟨d, mo, y, rfl, h, mi, rfl, hv, tz, rfl⟩
                    · intro _
                      exact ⟨⟨y, mo, d, h, mi, tz⟩, rfl⟩
                  · intro t hok
                    simp only [hv, if_true, hz] at hok
                    injection hok with heq
                    subst heq
                    rfl
                  · intro e herr
                    simp only [hv, if_true, hz] at herr
                    exact Except.noConfusion herr
            · simp [hv]
  refine ⟨hmain.1, hmain.2.1, hmain.2.2, ?_, ?_, ?_⟩
  · rintro (rfl | ⟨rfl, henv⟩)
    · rfl
    · simp [dateutil_gettz, henv]
  · intro hdb hdig hstr
    have hne : z ≠ "" := by
      intro heq
      rw [heq] at hdig
      exact absurd hdig (by decide)
    have hnc : z ≠ ":" := by
      intro heq
      rw [heq] at hdig
      exact absurd hdig (by decide)
    simp [dateutil_gettz, hne, hnc, hdb, hdig, hstr]
  · intro henv hnone
    have hne : z ≠ "" := by
      intro heq
      rw [heq] at hnone
      simp [dateutil_gettz, henv] at hnone
    have hnc : z ≠ ":" := by
      intro heq
      rw [heq] at hnone
      simp [dateutil_gettz] at hnone
    refine ⟨hne, hnc, ?_⟩
    cases hdb : env.db z with
    | false => rfl
    | true =>
        unfold dateutil_gettz at hnone
        simp [hne, hnc, hdb] at hnone

theorem tz_aware_time_gettz_fallback_witness :
    (∃ t, _tz_aware_time bareEnv "27.11.1997" "18:25" "" = .ok t) ∧
    dateutil_gettz bareEnv "" = some .tzlocal ∧
    dateutil_gettz offsetEnv "EST-3" = some (.tzstr "EST-3") := by
  have h1 := tz_aware_time_gettz_fallback bareEnv "27.11.1997" "18:25" ""
  have h2 := tz_aware_time_gettz_fallback offsetEnv "27.11.1997" "18:25" "EST-3"
  exact ⟨h1.1.mpr ⟨27, 11, 1997, by decide, 18, 25, by decide, by decide, .tzlocal, rfl⟩,
    h1.2.2.2.1 (Or.inr ⟨rfl, rfl⟩),
    h2.2.2.2.2.1 rfl (by decide) (by decide)⟩

/-! ## Longitude normalization (C8) -/

/-- C8: the longitude map has exactly the seven fixed bodies in the fixed
order, and every stored longitude is normalized by `% 360.0` into
`[0, 360)`. -/
theorem planets_longitudes_normalized (observe : String → ℚ) :
    (planets_longitudes observe).map Prod.fst
        = ["Sun", "Moon", "Mercury", "Venus", "Mars", "Jupiter", "Saturn"] ∧
    (planets_longitudes observe).length = 7 ∧
    ∀ p ∈ planets_longitudes observe, 0 ≤ p.2 ∧ p.2 < 360 := by
  refine ⟨rfl, rfl, ?_⟩
  intro p hp
  unfold planets_longitudes at hp
  obtain ⟨q, hq, rfl⟩ := List.mem_map.mp hp
  exact ⟨pymod_nonneg _ (by norm_num), pymod_lt _ (by norm_num)⟩

theorem planets_longitudes_normalized_witness :
    0 ≤ pymod 370 360 ∧ pymod 370 360 < 360 :=
  (planets_longitudes_normalized (fun _ => 370)).2.2 ("Sun", pymod 370 360)
    (List.mem_map.mpr ⟨("Sun", "sun"), by decide, rfl⟩)

/-! ## Event independence of the phrase lists (C9) -/

/-- C9: the action-phrase list and the avoidance-phrase list ignore the
events argument entirely: any two events lists produce identical action
lists and identical avoidance lists. -/
theorem phrase_lists_event_independent (e1 e2 : List (String × String × String)) :
    _actions_from_aspects e1 = _actions_from_aspects e2 ∧
    _avoid_from_aspects e1 = _avoid_from_aspects e2 :=
  ⟨rfl, rfl⟩
